import Mathlib

/-!
Verification of the ThingSet CAN 29-bit identifier scheme
(`include/thingset/can.h` of the thingset-zephyr-sdk repository).

The header defines the bit-field layout of the 29-bit CAN identifier:
priority in bits 28..26, a 2-bit message type in bits 25..24, a
bus-id/data-id-high/variable byte in bits 23..16, a target/data-id-low byte
in bits 15..8, and the source address in bits 7..0, together with
setter/getter macros, message-type classification macros and the reserved
address constants.  All macros operate on C `uint32_t` values; we embed them
over `Nat` with explicit reduction modulo `2 ^ 32` wherever the C code casts
to `uint32_t` (shifts of `uint32_t` values wrap modulo `2 ^ 32`; masking and
right shifts cannot overflow).
-/

namespace ThingSetCan

/-- C cast to `uint32_t`: reduction modulo `2 ^ 32`. -/
def uint32 (n : Nat) : Nat := n % 4294967296

/- source and target addresses -/

def THINGSET_CAN_SOURCE_POS : Nat := 0

def THINGSET_CAN_SOURCE_MASK : Nat := 0xFF <<< THINGSET_CAN_SOURCE_POS

/-- Macro `THINGSET_CAN_SOURCE_SET(addr)`: `((uint32_t)addr << pos) & mask`. -/
def THINGSET_CAN_SOURCE_SET (addr : Nat) : Nat :=
  uint32 (uint32 addr <<< THINGSET_CAN_SOURCE_POS) &&& THINGSET_CAN_SOURCE_MASK

/-- Macro `THINGSET_CAN_SOURCE_GET(id)`: `((uint32_t)id & mask) >> pos`. -/
def THINGSET_CAN_SOURCE_GET (id : Nat) : Nat :=
  (uint32 id &&& THINGSET_CAN_SOURCE_MASK) >>> THINGSET_CAN_SOURCE_POS

def THINGSET_CAN_TARGET_POS : Nat := 8

def THINGSET_CAN_TARGET_MASK : Nat := 0xFF <<< THINGSET_CAN_TARGET_POS

/-- Macro `THINGSET_CAN_TARGET_SET(addr)`. -/
def THINGSET_CAN_TARGET_SET (addr : Nat) : Nat :=
  uint32 (uint32 addr <<< THINGSET_CAN_TARGET_POS) &&& THINGSET_CAN_TARGET_MASK

/-- Macro `THINGSET_CAN_TARGET_GET(id)`. -/
def THINGSET_CAN_TARGET_GET (id : Nat) : Nat :=
  (uint32 id &&& THINGSET_CAN_TARGET_MASK) >>> THINGSET_CAN_TARGET_POS

def THINGSET_CAN_ADDR_MAX : Nat := 0xFD

def THINGSET_CAN_ADDR_ANONYMOUS : Nat := 0xFE

def THINGSET_CAN_ADDR_BROADCAST : Nat := 0xFF

/- data IDs for publication messages -/

def THINGSET_CAN_DATA_ID_POS : Nat := 8

def THINGSET_CAN_DATA_ID_MASK : Nat := 0xFFFF <<< THINGSET_CAN_DATA_ID_POS

/-- Macro `THINGSET_CAN_DATA_ID_SET(id)`. -/
def THINGSET_CAN_DATA_ID_SET (id : Nat) : Nat :=
  uint32 (uint32 id <<< THINGSET_CAN_DATA_ID_POS) &&& THINGSET_CAN_DATA_ID_MASK

/-- Macro `THINGSET_CAN_DATA_ID_GET(id)`. -/
def THINGSET_CAN_DATA_ID_GET (id : Nat) : Nat :=
  (uint32 id &&& THINGSET_CAN_DATA_ID_MASK) >>> THINGSET_CAN_DATA_ID_POS

/- bus ID for request/response messages -/

def THINGSET_CAN_BUS_ID_POS : Nat := 16

def THINGSET_CAN_BUS_ID_MASK : Nat := 0xFF <<< THINGSET_CAN_BUS_ID_POS

/-- Macro `THINGSET_CAN_BUS_ID_SET(id)`. -/
def THINGSET_CAN_BUS_ID_SET (id : Nat) : Nat :=
  uint32 (uint32 id <<< THINGSET_CAN_BUS_ID_POS) &&& THINGSET_CAN_BUS_ID_MASK

/-- Macro `THINGSET_CAN_BUS_ID_GET(id)`. -/
def THINGSET_CAN_BUS_ID_GET (id : Nat) : Nat :=
  (uint32 id &&& THINGSET_CAN_BUS_ID_MASK) >>> THINGSET_CAN_BUS_ID_POS

def THINGSET_CAN_BUS_ID_DEFAULT : Nat := 0xDA

/- message types -/

def THINGSET_CAN_TYPE_POS : Nat := 24

def THINGSET_CAN_TYPE_MASK : Nat := 0x3 <<< THINGSET_CAN_TYPE_POS

def THINGSET_CAN_TYPE_CHANNEL : Nat := 0x0 <<< THINGSET_CAN_TYPE_POS

def THINGSET_CAN_TYPE_REPORT : Nat := 0x2 <<< THINGSET_CAN_TYPE_POS

def THINGSET_CAN_TYPE_NETWORK : Nat := 0x3 <<< THINGSET_CAN_TYPE_POS

/-- Modelled from the spec: the symbol `THINGSET_CAN_TYPE_CONTROL` is
referenced by the `THINGSET_CAN_CONTROL` macro but is not defined in
`can.h`.  The spec documents that Control frames share the Report type tag
`0x2` and are distinguished from Report frames purely by the priority
threshold, so the missing constant equals `THINGSET_CAN_TYPE_REPORT`. -/
def THINGSET_CAN_TYPE_CONTROL : Nat := 0x2 <<< THINGSET_CAN_TYPE_POS

/- message priorities -/

def THINGSET_CAN_PRIO_POS : Nat := 26

def THINGSET_CAN_PRIO_MASK : Nat := 0x7 <<< THINGSET_CAN_PRIO_POS

/-- Macro `THINGSET_CAN_PRIO_SET(prio)`: `(uint32_t)prio << pos` — note
that, unlike the other setters, no mask is applied. -/
def THINGSET_CAN_PRIO_SET (p : Nat) : Nat :=
  uint32 (uint32 p <<< THINGSET_CAN_PRIO_POS)

/-- Macro `THINGSET_CAN_PRIO_GET(id)`. -/
def THINGSET_CAN_PRIO_GET (id : Nat) : Nat :=
  (uint32 id &&& THINGSET_CAN_PRIO_MASK) >>> THINGSET_CAN_PRIO_POS

def THINGSET_CAN_PRIO_CONTROL_EMERGENCY : Nat := 0x0 <<< THINGSET_CAN_PRIO_POS

def THINGSET_CAN_PRIO_CONTROL_HIGH : Nat := 0x2 <<< THINGSET_CAN_PRIO_POS

def THINGSET_CAN_PRIO_CONTROL_LOW : Nat := 0x3 <<< THINGSET_CAN_PRIO_POS

def THINGSET_CAN_PRIO_NETWORK_MGMT : Nat := 0x4 <<< THINGSET_CAN_PRIO_POS

def THINGSET_CAN_PRIO_REPORT_HIGH : Nat := 0x5 <<< THINGSET_CAN_PRIO_POS

def THINGSET_CAN_PRIO_CHANNEL : Nat := 0x6 <<< THINGSET_CAN_PRIO_POS

def THINGSET_CAN_PRIO_REPORT_LOW : Nat := 0x7 <<< THINGSET_CAN_PRIO_POS

/- classification macros: true if the CAN ID matches the message type -/

/-- Macro `THINGSET_CAN_CONTROL(id)` (uses the spec-modelled
`THINGSET_CAN_TYPE_CONTROL`). -/
def THINGSET_CAN_CONTROL (id : Nat) : Bool :=
  decide ((id &&& THINGSET_CAN_TYPE_MASK) = THINGSET_CAN_TYPE_CONTROL)
    && decide (THINGSET_CAN_PRIO_GET id < 4)

/-- Macro `THINGSET_CAN_REPORT(id)`. -/
def THINGSET_CAN_REPORT (id : Nat) : Bool :=
  decide ((id &&& THINGSET_CAN_TYPE_MASK) = THINGSET_CAN_TYPE_REPORT)
    && decide (THINGSET_CAN_PRIO_GET id ≥ 4)

/-- Macro `THINGSET_CAN_CHANNEL(id)`. -/
def THINGSET_CAN_CHANNEL (id : Nat) : Bool :=
  decide ((id &&& THINGSET_CAN_TYPE_MASK) = THINGSET_CAN_TYPE_CHANNEL)

/-- Classification as a network-management frame: the 2-bit type tag equals
`THINGSET_CAN_TYPE_NETWORK` (`0x3`), as in the spec's `classify`. -/
def isNetworkMgmt (id : Nat) : Bool :=
  decide ((id &&& THINGSET_CAN_TYPE_MASK) = THINGSET_CAN_TYPE_NETWORK)

/-- Modelled from the spec: the `Unknown` class of `classify` — an
identifier that matches none of the classification predicates (the
reserved/unused type pattern). -/
def isUnknown (id : Nat) : Bool :=
  !THINGSET_CAN_CHANNEL id && !THINGSET_CAN_CONTROL id && !THINGSET_CAN_REPORT id
    && !isNetworkMgmt id

/-- Modelled from the spec: the Address State operation `commit(address)` is
not part of the header under verification (only the constants and the
`node_addr` field are); per the spec it rejects the anonymous (`0xFE`) and
broadcast (`0xFF`) sentinels and otherwise stores the address as the claimed
node address. -/
def commit (addr : Nat) : Option Nat :=
  if addr = THINGSET_CAN_ADDR_ANONYMOUS ∨ addr = THINGSET_CAN_ADDR_BROADCAST then none
  else some addr

/-- Modelled from the spec: validity of channel-frame encode inputs — every
field within its declared bit width (3-bit priority, 8-bit bus id, target
and source). -/
def validChannelFields (p b t s : Nat) : Bool :=
  decide (p < 8) && decide (b < 256) && decide (t < 256) && decide (s < 256)

/-- Channel-frame identifier encoding as composed by the code: the bitwise
OR of the priority, type, bus-id, target and source setter macros. -/
def encodeChannel (p b t s : Nat) : Nat :=
  THINGSET_CAN_PRIO_SET p ||| THINGSET_CAN_TYPE_CHANNEL ||| THINGSET_CAN_BUS_ID_SET b
    ||| THINGSET_CAN_TARGET_SET t ||| THINGSET_CAN_SOURCE_SET s

/- arithmetic characterisations of the bit-field macros -/

theorem and_mask_shift (x n k : Nat) :
    x &&& ((2 ^ n - 1) <<< k) = ((x >>> k) % 2 ^ n) <<< k := by
  apply Nat.eq_of_testBit_eq
  intro i
  simp only [Nat.testBit_and, Nat.testBit_shiftLeft, Nat.testBit_mod_two_pow,
    Nat.testBit_shiftRight, Nat.testBit_two_pow_sub_one, ge_iff_le]
  by_cases hk : k ≤ i
  · have hik : k + (i - k) = i := by omega
    simp [hk, hik]
    cases Nat.testBit x i <;> simp
  · simp [hk]

theorem and_mask_arith (x n k : Nat) :
    x &&& ((2 ^ n - 1) <<< k) = x / 2 ^ k % 2 ^ n * 2 ^ k := by
  rw [and_mask_shift, Nat.shiftLeft_eq, Nat.shiftRight_eq_div_pow]

theorem THINGSET_CAN_SOURCE_SET_eq (v : Nat) : THINGSET_CAN_SOURCE_SET v = v % 256 := by
  calc THINGSET_CAN_SOURCE_SET v
      = uint32 (uint32 v <<< THINGSET_CAN_SOURCE_POS) &&& ((2 ^ 8 - 1) <<< 0) := by
        norm_num [THINGSET_CAN_SOURCE_SET, THINGSET_CAN_SOURCE_MASK, THINGSET_CAN_SOURCE_POS]
    _ = v % 256 := by
        rw [and_mask_arith]
        norm_num [THINGSET_CAN_SOURCE_POS, Nat.shiftLeft_eq, uint32]

theorem THINGSET_CAN_SOURCE_GET_eq (x : Nat) : THINGSET_CAN_SOURCE_GET x = x % 256 := by
  calc THINGSET_CAN_SOURCE_GET x
      = (uint32 x &&& ((2 ^ 8 - 1) <<< 0)) >>> 0 := by
        norm_num [THINGSET_CAN_SOURCE_GET, THINGSET_CAN_SOURCE_MASK, THINGSET_CAN_SOURCE_POS]
    _ = x % 256 := by
        rw [and_mask_arith, Nat.shiftRight_eq_div_pow]
        norm_num [uint32]

theorem THINGSET_CAN_TARGET_SET_eq (v : Nat) :
    THINGSET_CAN_TARGET_SET v = v % 256 * 256 := by
  calc THINGSET_CAN_TARGET_SET v
      = uint32 (uint32 v <<< THINGSET_CAN_TARGET_POS) &&& ((2 ^ 8 - 1) <<< 8) := by
        norm_num [THINGSET_CAN_TARGET_SET, THINGSET_CAN_TARGET_MASK, THINGSET_CAN_TARGET_POS]
    _ = v % 256 * 256 := by
        rw [and_mask_arith]
        norm_num [THINGSET_CAN_TARGET_POS, Nat.shiftLeft_eq, uint32]
        omega

theorem THINGSET_CAN_TARGET_GET_eq (x : Nat) :
    THINGSET_CAN_TARGET_GET x = x % 4294967296 / 256 % 256 := by
  calc THINGSET_CAN_TARGET_GET x
      = (uint32 x &&& ((2 ^ 8 - 1) <<< 8)) >>> 8 := by
        norm_num [THINGSET_CAN_TARGET_GET, THINGSET_CAN_TARGET_MASK, THINGSET_CAN_TARGET_POS]
    _ = x % 4294967296 / 256 % 256 := by
        rw [and_mask_arith, Nat.shiftRight_eq_div_pow]
        norm_num [uint32]

theorem THINGSET_CAN_DATA_ID_SET_eq (v : Nat) :
    THINGSET_CAN_DATA_ID_SET v = v % 65536 * 256 := by
  calc THINGSET_CAN_DATA_ID_SET v
      = uint32 (uint32 v <<< THINGSET_CAN_DATA_ID_POS) &&& ((2 ^ 16 - 1) <<< 8) := by
        norm_num [THINGSET_CAN_DATA_ID_SET, THINGSET_CAN_DATA_ID_MASK, THINGSET_CAN_DATA_ID_POS]
    _ = v % 65536 * 256 := by
        rw [and_mask_arith]
        norm_num [THINGSET_CAN_DATA_ID_POS, Nat.shiftLeft_eq, uint32]
        omega

theorem THINGSET_CAN_DATA_ID_GET_eq (x : Nat) :
    THINGSET_CAN_DATA_ID_GET x = x % 4294967296 / 256 % 65536 := by
  calc THINGSET_CAN_DATA_ID_GET x
      = (uint32 x &&& ((2 ^ 16 - 1) <<< 8)) >>> 8 := by
        norm_num [THINGSET_CAN_DATA_ID_GET, THINGSET_CAN_DATA_ID_MASK, THINGSET_CAN_DATA_ID_POS]
    _ = x % 4294967296 / 256 % 65536 := by
        rw [and_mask_arith, Nat.shiftRight_eq_div_pow]
        norm_num [uint32]

theorem THINGSET_CAN_BUS_ID_SET_eq (v : Nat) :
    THINGSET_CAN_BUS_ID_SET v = v % 256 * 65536 := by
  calc THINGSET_CAN_BUS_ID_SET v
      = uint32 (uint32 v <<< THINGSET_CAN_BUS_ID_POS) &&& ((2 ^ 8 - 1) <<< 16) := by
        norm_num [THINGSET_CAN_BUS_ID_SET, THINGSET_CAN_BUS_ID_MASK, THINGSET_CAN_BUS_ID_POS]
    _ = v % 256 * 65536 := by
        rw [and_mask_arith]
        norm_num [THINGSET_CAN_BUS_ID_POS, Nat.shiftLeft_eq, uint32]
        omega

theorem THINGSET_CAN_BUS_ID_GET_eq (x : Nat) :
    THINGSET_CAN_BUS_ID_GET x = x % 4294967296 / 65536 % 256 := by
  calc THINGSET_CAN_BUS_ID_GET x
      = (uint32 x &&& ((2 ^ 8 - 1) <<< 16)) >>> 16 := by
        norm_num [THINGSET_CAN_BUS_ID_GET, THINGSET_CAN_BUS_ID_MASK, THINGSET_CAN_BUS_ID_POS]
    _ = x % 4294967296 / 65536 % 256 := by
        rw [and_mask_arith, Nat.shiftRight_eq_div_pow]
        norm_num [uint32]

theorem THINGSET_CAN_PRIO_SET_eq (p : Nat) :
    THINGSET_CAN_PRIO_SET p = p % 64 * 67108864 := by
  unfold THINGSET_CAN_PRIO_SET uint32 THINGSET_CAN_PRIO_POS
  rw [Nat.shiftLeft_eq]
  norm_num
  omega

theorem THINGSET_CAN_PRIO_GET_eq (x : Nat) :
    THINGSET_CAN_PRIO_GET x = x % 4294967296 / 67108864 % 8 := by
  calc THINGSET_CAN_PRIO_GET x
      = (uint32 x &&& ((2 ^ 3 - 1) <<< 26)) >>> 26 := by
        norm_num [THINGSET_CAN_PRIO_GET, THINGSET_CAN_PRIO_MASK, THINGSET_CAN_PRIO_POS]
    _ = x % 4294967296 / 67108864 % 8 := by
        rw [and_mask_arith, Nat.shiftRight_eq_div_pow]
        norm_num [uint32]

theorem type_mask_and_eq (id : Nat) :
    id &&& THINGSET_CAN_TYPE_MASK = id / 16777216 % 4 * 16777216 := by
  calc id &&& THINGSET_CAN_TYPE_MASK
      = id &&& ((2 ^ 2 - 1) <<< 24) := by
        norm_num [THINGSET_CAN_TYPE_MASK, THINGSET_CAN_TYPE_POS]
    _ = id / 16777216 % 4 * 16777216 := by
        rw [and_mask_arith]
        norm_num

theorem source_mask_and_eq (x : Nat) :
    x &&& THINGSET_CAN_SOURCE_MASK = x % 256 := by
  calc x &&& THINGSET_CAN_SOURCE_MASK
      = x &&& ((2 ^ 8 - 1) <<< 0) := by
        norm_num [THINGSET_CAN_SOURCE_MASK, THINGSET_CAN_SOURCE_POS]
    _ = x % 256 := by
        rw [and_mask_arith]
        norm_num

theorem target_mask_and_eq (x : Nat) :
    x &&& THINGSET_CAN_TARGET_MASK = x / 256 % 256 * 256 := by
  calc x &&& THINGSET_CAN_TARGET_MASK
      = x &&& ((2 ^ 8 - 1) <<< 8) := by
        norm_num [THINGSET_CAN_TARGET_MASK, THINGSET_CAN_TARGET_POS]
    _ = x / 256 % 256 * 256 := by
        rw [and_mask_arith]
        norm_num

theorem bus_id_mask_and_eq (x : Nat) :
    x &&& THINGSET_CAN_BUS_ID_MASK = x / 65536 % 256 * 65536 := by
  calc x &&& THINGSET_CAN_BUS_ID_MASK
      = x &&& ((2 ^ 8 - 1) <<< 16) := by
        norm_num [THINGSET_CAN_BUS_ID_MASK, THINGSET_CAN_BUS_ID_POS]
    _ = x / 65536 % 256 * 65536 := by
        rw [and_mask_arith]
        norm_num

theorem data_id_mask_and_eq (x : Nat) :
    x &&& THINGSET_CAN_DATA_ID_MASK = x / 256 % 65536 * 256 := by
  calc x &&& THINGSET_CAN_DATA_ID_MASK
      = x &&& ((2 ^ 16 - 1) <<< 8) := by
        norm_num [THINGSET_CAN_DATA_ID_MASK, THINGSET_CAN_DATA_ID_POS]
    _ = x / 256 % 65536 * 256 := by
        rw [and_mask_arith]
        norm_num

theorem prio_mask_and_eq (x : Nat) :
    x &&& THINGSET_CAN_PRIO_MASK = x / 67108864 % 8 * 67108864 := by
  calc x &&& THINGSET_CAN_PRIO_MASK
      = x &&& ((2 ^ 3 - 1) <<< 26) := by
        norm_num [THINGSET_CAN_PRIO_MASK, THINGSET_CAN_PRIO_POS]
    _ = x / 67108864 % 8 * 67108864 := by
        rw [and_mask_arith]
        norm_num

theorem and_mask_29 (x : Nat) : x &&& 0x1FFFFFFF = x % 536870912 := by
  have h := Nat.and_pow_two_sub_one_eq_mod x 29
  norm_num at h
  exact h

/- Claim theorems -/

/-- Claim C1: for every field tuple whose components are within their
declared bit widths (priority < 8, source < 0x100, target < 0x100,
bus_id < 0x100, data_id < 0x10000), each GET macro applied to the
corresponding SET macro's output yields the input value. -/
theorem C1_roundtrip (p s t b d : Nat) (hp : p < 8) (hs : s < 0x100) (ht : t < 0x100)
    (hb : b < 0x100) (hd : d < 0x10000) :
    THINGSET_CAN_SOURCE_GET (THINGSET_CAN_SOURCE_SET s) = s ∧
    THINGSET_CAN_TARGET_GET (THINGSET_CAN_TARGET_SET t) = t ∧
    THINGSET_CAN_BUS_ID_GET (THINGSET_CAN_BUS_ID_SET b) = b ∧
    THINGSET_CAN_DATA_ID_GET (THINGSET_CAN_DATA_ID_SET d) = d ∧
    THINGSET_CAN_PRIO_GET (THINGSET_CAN_PRIO_SET p) = p := by
  rw [THINGSET_CAN_SOURCE_SET_eq, THINGSET_CAN_SOURCE_GET_eq, THINGSET_CAN_TARGET_SET_eq,
    THINGSET_CAN_TARGET_GET_eq, THINGSET_CAN_BUS_ID_SET_eq, THINGSET_CAN_BUS_ID_GET_eq,
    THINGSET_CAN_DATA_ID_SET_eq, THINGSET_CAN_DATA_ID_GET_eq, THINGSET_CAN_PRIO_SET_eq,
    THINGSET_CAN_PRIO_GET_eq]
  refine ⟨?_, ?_, ?_, ?_, ?_⟩ <;> omega

/-- Witness for C1 at the tuple (priority 6, source 0x01, target 0x05,
bus id 0xDA, data id 0x1234). -/
theorem C1_roundtrip_witness :
    THINGSET_CAN_SOURCE_GET (THINGSET_CAN_SOURCE_SET 0x01) = 0x01 ∧
    THINGSET_CAN_TARGET_GET (THINGSET_CAN_TARGET_SET 0x05) = 0x05 ∧
    THINGSET_CAN_BUS_ID_GET (THINGSET_CAN_BUS_ID_SET 0xDA) = 0xDA ∧
    THINGSET_CAN_DATA_ID_GET (THINGSET_CAN_DATA_ID_SET 0x1234) = 0x1234 ∧
    THINGSET_CAN_PRIO_GET (THINGSET_CAN_PRIO_SET 6) = 6 :=
  C1_roundtrip 6 0x01 0x05 0xDA 0x1234 (by decide) (by decide) (by decide) (by decide)
    (by decide)

/-- Claim C4: OR-ing the setter outputs for the tuple {priority=6,
type=Channel, bus_id=0xDA, target=0x05, source=0x01} yields exactly the
identifier 0x18DA0501. -/
theorem C4_encode_scenario :
    THINGSET_CAN_PRIO_SET 6 ||| THINGSET_CAN_TYPE_CHANNEL ||| THINGSET_CAN_BUS_ID_SET 0xDA
      ||| THINGSET_CAN_TARGET_SET 0x05 ||| THINGSET_CAN_SOURCE_SET 0x01 = 0x18DA0501 := by
  decide

/-- Claim C7: the priority constants order as required by CAN arbitration —
network management (4) below channel (6) and report-low (7), above
control-emergency (0) and control-high (2). -/
theorem C7_priority_order :
    THINGSET_CAN_PRIO_NETWORK_MGMT < THINGSET_CAN_PRIO_CHANNEL ∧
    THINGSET_CAN_PRIO_NETWORK_MGMT < THINGSET_CAN_PRIO_REPORT_LOW ∧
    THINGSET_CAN_PRIO_CONTROL_EMERGENCY < THINGSET_CAN_PRIO_NETWORK_MGMT ∧
    THINGSET_CAN_PRIO_CONTROL_HIGH < THINGSET_CAN_PRIO_NETWORK_MGMT := by
  decide

/-- Claim C10: the five field masks are pairwise disjoint and OR to exactly
the 29-bit space 0x1FFFFFFF. -/
theorem C10_mask_partition :
    THINGSET_CAN_PRIO_MASK &&& THINGSET_CAN_TYPE_MASK = 0 ∧
    THINGSET_CAN_PRIO_MASK &&& THINGSET_CAN_BUS_ID_MASK = 0 ∧
    THINGSET_CAN_PRIO_MASK &&& THINGSET_CAN_TARGET_MASK = 0 ∧
    THINGSET_CAN_PRIO_MASK &&& THINGSET_CAN_SOURCE_MASK = 0 ∧
    THINGSET_CAN_TYPE_MASK &&& THINGSET_CAN_BUS_ID_MASK = 0 ∧
    THINGSET_CAN_TYPE_MASK &&& THINGSET_CAN_TARGET_MASK = 0 ∧
    THINGSET_CAN_TYPE_MASK &&& THINGSET_CAN_SOURCE_MASK = 0 ∧
    THINGSET_CAN_BUS_ID_MASK &&& THINGSET_CAN_TARGET_MASK = 0 ∧
    THINGSET_CAN_BUS_ID_MASK &&& THINGSET_CAN_SOURCE_MASK = 0 ∧
    THINGSET_CAN_TARGET_MASK &&& THINGSET_CAN_SOURCE_MASK = 0 ∧
    (THINGSET_CAN_PRIO_MASK ||| THINGSET_CAN_TYPE_MASK ||| THINGSET_CAN_BUS_ID_MASK
      ||| THINGSET_CAN_TARGET_MASK ||| THINGSET_CAN_SOURCE_MASK) = 0x1FFFFFFF := by
  decide

/-- Claim C8 (implicit): for every 32-bit value v the source, target,
bus-id and data-id setters silently truncate by masking — the round trip
returns v reduced modulo the field width, and no bits outside the
designated field are ever set (each setter's output is invariant under its
own mask); the setters are total, so no error is signalled. -/
theorem C8_truncation (v : Nat) (_hv : v < 4294967296) :
    THINGSET_CAN_SOURCE_GET (THINGSET_CAN_SOURCE_SET v) = v % 2 ^ 8 ∧
    THINGSET_CAN_TARGET_GET (THINGSET_CAN_TARGET_SET v) = v % 2 ^ 8 ∧
    THINGSET_CAN_BUS_ID_GET (THINGSET_CAN_BUS_ID_SET v) = v % 2 ^ 8 ∧
    THINGSET_CAN_DATA_ID_GET (THINGSET_CAN_DATA_ID_SET v) = v % 2 ^ 16 ∧
    THINGSET_CAN_SOURCE_SET v &&& THINGSET_CAN_SOURCE_MASK = THINGSET_CAN_SOURCE_SET v ∧
    THINGSET_CAN_TARGET_SET v &&& THINGSET_CAN_TARGET_MASK = THINGSET_CAN_TARGET_SET v ∧
    THINGSET_CAN_BUS_ID_SET v &&& THINGSET_CAN_BUS_ID_MASK = THINGSET_CAN_BUS_ID_SET v ∧
    THINGSET_CAN_DATA_ID_SET v &&& THINGSET_CAN_DATA_ID_MASK = THINGSET_CAN_DATA_ID_SET v := by
  simp only [THINGSET_CAN_SOURCE_SET_eq, THINGSET_CAN_SOURCE_GET_eq,
    THINGSET_CAN_TARGET_SET_eq, THINGSET_CAN_TARGET_GET_eq, THINGSET_CAN_BUS_ID_SET_eq,
    THINGSET_CAN_BUS_ID_GET_eq, THINGSET_CAN_DATA_ID_SET_eq, THINGSET_CAN_DATA_ID_GET_eq,
    source_mask_and_eq, target_mask_and_eq, bus_id_mask_and_eq, data_id_mask_and_eq]
  refine ⟨?_, ?_, ?_, ?_, ?_, ?_, ?_, ?_⟩ <;> omega

/-- Witness for C8 at v = 0xFFFFFFFF (over-width for every field). -/
theorem C8_truncation_witness :
    THINGSET_CAN_SOURCE_GET (THINGSET_CAN_SOURCE_SET 0xFFFFFFFF) = 0xFFFFFFFF % 2 ^ 8 ∧
    THINGSET_CAN_TARGET_GET (THINGSET_CAN_TARGET_SET 0xFFFFFFFF) = 0xFFFFFFFF % 2 ^ 8 ∧
    THINGSET_CAN_BUS_ID_GET (THINGSET_CAN_BUS_ID_SET 0xFFFFFFFF) = 0xFFFFFFFF % 2 ^ 8 ∧
    THINGSET_CAN_DATA_ID_GET (THINGSET_CAN_DATA_ID_SET 0xFFFFFFFF) = 0xFFFFFFFF % 2 ^ 16 ∧
    THINGSET_CAN_SOURCE_SET 0xFFFFFFFF &&& THINGSET_CAN_SOURCE_MASK
      = THINGSET_CAN_SOURCE_SET 0xFFFFFFFF ∧
    THINGSET_CAN_TARGET_SET 0xFFFFFFFF &&& THINGSET_CAN_TARGET_MASK
      = THINGSET_CAN_TARGET_SET 0xFFFFFFFF ∧
    THINGSET_CAN_BUS_ID_SET 0xFFFFFFFF &&& THINGSET_CAN_BUS_ID_MASK
      = THINGSET_CAN_BUS_ID_SET 0xFFFFFFFF ∧
    THINGSET_CAN_DATA_ID_SET 0xFFFFFFFF &&& THINGSET_CAN_DATA_ID_MASK
      = THINGSET_CAN_DATA_ID_SET 0xFFFFFFFF :=
  C8_truncation 0xFFFFFFFF (by decide)

/-- Claim C9 (implicit): the priority setter applies no mask — for
8 ≤ p < 2^6 its output has bits above bit 28 (it is not fixed by masking to
the 29-bit space), while for p < 8 the output lies entirely within the
3-bit priority field (bits 28..26). -/
theorem C9_prio_unmasked (p : Nat) :
    (8 ≤ p → p < 64 → THINGSET_CAN_PRIO_SET p ≠ THINGSET_CAN_PRIO_SET p &&& 0x1FFFFFFF) ∧
    (p < 8 → THINGSET_CAN_PRIO_SET p &&& 0x1FFFFFFF = THINGSET_CAN_PRIO_SET p ∧
      THINGSET_CAN_PRIO_SET p &&& THINGSET_CAN_PRIO_MASK = THINGSET_CAN_PRIO_SET p) := by
  simp only [THINGSET_CAN_PRIO_SET_eq, and_mask_29, prio_mask_and_eq]
  constructor
  · intro h8 h64
    omega
  · intro h8
    constructor <;> omega

/-- Witness for C9 at p = 9 (over-width) and p = 6 (in range). -/
theorem C9_prio_unmasked_witness :
    (THINGSET_CAN_PRIO_SET 9 ≠ THINGSET_CAN_PRIO_SET 9 &&& 0x1FFFFFFF) ∧
    (THINGSET_CAN_PRIO_SET 6 &&& 0x1FFFFFFF = THINGSET_CAN_PRIO_SET 6 ∧
      THINGSET_CAN_PRIO_SET 6 &&& THINGSET_CAN_PRIO_MASK = THINGSET_CAN_PRIO_SET 6) :=
  ⟨(C9_prio_unmasked 9).1 (by decide) (by decide), (C9_prio_unmasked 6).2 (by decide)⟩

/-- Claim C6: with the Address State `commit` modelled from the spec,
committing rejects the anonymous (0xFE) and broadcast (0xFF) sentinels, and
a committed address is always at most THINGSET_CAN_ADDR_MAX (0xFD). -/
theorem C6_commit_bounds (a r : Nat) (ha : a < 256) (h : commit a = some r) :
    r ≤ THINGSET_CAN_ADDR_MAX ∧ commit THINGSET_CAN_ADDR_ANONYMOUS = none ∧
      commit THINGSET_CAN_ADDR_BROADCAST = none := by
  refine ⟨?_, by decide, by decide⟩
  unfold commit at h
  by_cases hc : a = THINGSET_CAN_ADDR_ANONYMOUS ∨ a = THINGSET_CAN_ADDR_BROADCAST
  · simp [hc] at h
  · simp [hc] at h
    push_neg at hc
    unfold THINGSET_CAN_ADDR_ANONYMOUS THINGSET_CAN_ADDR_BROADCAST at hc
    unfold THINGSET_CAN_ADDR_MAX
    omega

/-- Witness for C6 at address 5. -/
theorem C6_commit_bounds_witness :
    5 ≤ THINGSET_CAN_ADDR_MAX ∧ commit THINGSET_CAN_ADDR_ANONYMOUS = none ∧
      commit THINGSET_CAN_ADDR_BROADCAST = none :=
  C6_commit_bounds 5 5 (by decide) (by decide)

/-- Claim C5 counterexample: the channel field tuple {priority=6,
bus_id=0xDA, target=0x05, source=0x100} has an over-width source field, yet
the code's encoding produces the packed identifier 0x18DA0500 (the source
silently truncated to 0x00) instead of failing with any error. -/
theorem C5_counterexample :
    validChannelFields 6 0xDA 0x05 0x100 = false ∧
    encodeChannel 6 0xDA 0x05 0x100 = 0x18DA0500 := by
  decide

/-- Claim C5 (amended): the encode operation cannot fail — the source,
target, bus-id and data-id setter macros silently truncate any over-width
input by masking to the field width (and the priority setter shifts its
argument unmasked), so encoding an invalid tuple produces the packed
identifier of the truncated tuple rather than an InvalidField error. -/
theorem C5_amended_silent_truncation (v : Nat) :
    THINGSET_CAN_SOURCE_SET v = THINGSET_CAN_SOURCE_SET (v % 256) ∧
    THINGSET_CAN_TARGET_SET v = THINGSET_CAN_TARGET_SET (v % 256) ∧
    THINGSET_CAN_BUS_ID_SET v = THINGSET_CAN_BUS_ID_SET (v % 256) ∧
    THINGSET_CAN_DATA_ID_SET v = THINGSET_CAN_DATA_ID_SET (v % 65536) := by
  simp only [THINGSET_CAN_SOURCE_SET_eq, THINGSET_CAN_TARGET_SET_eq,
    THINGSET_CAN_BUS_ID_SET_eq, THINGSET_CAN_DATA_ID_SET_eq]
  refine ⟨?_, ?_, ?_, ?_⟩ <;> omega

/-- Claim C3: for every identifier whose 2-bit type field equals the Report
tag (0x2), priority 0..3 classifies as Control (and not Report) and
priority 4..7 classifies as Report (and not Control) — the disambiguation
is purely priority threshold 4 within the same tag (with
`THINGSET_CAN_TYPE_CONTROL` modelled from the spec as the Report tag). -/
theorem C3_priority_disambiguation (id : Nat)
    (h : id &&& THINGSET_CAN_TYPE_MASK = THINGSET_CAN_TYPE_REPORT) :
    (THINGSET_CAN_PRIO_GET id < 4 →
      THINGSET_CAN_CONTROL id = true ∧ THINGSET_CAN_REPORT id = false) ∧
    (4 ≤ THINGSET_CAN_PRIO_GET id →
      THINGSET_CAN_REPORT id = true ∧ THINGSET_CAN_CONTROL id = false) := by
  have hTC : THINGSET_CAN_TYPE_CONTROL = THINGSET_CAN_TYPE_REPORT := rfl
  refine ⟨fun hlt => ⟨?_, ?_⟩, fun hge => ⟨?_, ?_⟩⟩
  · simp [THINGSET_CAN_CONTROL, hTC, h, hlt]
  · simp [THINGSET_CAN_REPORT, h]
    omega
  · simp [THINGSET_CAN_REPORT, h, hge]
  · simp [THINGSET_CAN_CONTROL, hTC, h]
    omega

/-- Witness for C3 at id = 0x2000000 (type tag 0x2, priority 0). -/
theorem C3_priority_disambiguation_witness :
    THINGSET_CAN_CONTROL 0x2000000 = true ∧ THINGSET_CAN_REPORT 0x2000000 = false :=
  (C3_priority_disambiguation 0x2000000 (by decide)).1 (by decide)

/-- Claim C2: over the 29-bit identifier space the classification
predicates `THINGSET_CAN_CHANNEL`, `THINGSET_CAN_CONTROL`,
`THINGSET_CAN_REPORT` and the NetworkMgmt type-tag test are pairwise
mutually exclusive (also each excludes `Unknown`), the classification into
{Channel, Report-including-Control, NetworkMgmt, Unknown} is exhaustive, and
an identifier is Unknown exactly when its 2-bit type tag is the remaining
pattern 0x1 (with `THINGSET_CAN_TYPE_CONTROL` modelled from the spec). -/
theorem C2_classification_partition (id : Nat) (_h : id < 2 ^ 29) :
    (THINGSET_CAN_CHANNEL id = true
      ∨ (THINGSET_CAN_CONTROL id || THINGSET_CAN_REPORT id) = true
      ∨ isNetworkMgmt id = true ∨ isUnknown id = true) ∧
    ¬(THINGSET_CAN_CHANNEL id = true ∧ THINGSET_CAN_CONTROL id = true) ∧
    ¬(THINGSET_CAN_CHANNEL id = true ∧ THINGSET_CAN_REPORT id = true) ∧
    ¬(THINGSET_CAN_CHANNEL id = true ∧ isNetworkMgmt id = true) ∧
    ¬(THINGSET_CAN_CONTROL id = true ∧ THINGSET_CAN_REPORT id = true) ∧
    ¬(THINGSET_CAN_CONTROL id = true ∧ isNetworkMgmt id = true) ∧
    ¬(THINGSET_CAN_REPORT id = true ∧ isNetworkMgmt id = true) ∧
    ¬(THINGSET_CAN_CHANNEL id = true ∧ isUnknown id = true) ∧
    ¬(THINGSET_CAN_CONTROL id = true ∧ isUnknown id = true) ∧
    ¬(THINGSET_CAN_REPORT id = true ∧ isUnknown id = true) ∧
    ¬(isNetworkMgmt id = true ∧ isUnknown id = true) ∧
    (isUnknown id = true ↔ id &&& THINGSET_CAN_TYPE_MASK = 1 <<< THINGSET_CAN_TYPE_POS) := by
  have hand := type_mask_and_eq id
  have hprio := THINGSET_CAN_PRIO_GET_eq id
  have hc0 : THINGSET_CAN_TYPE_CHANNEL = 0 := rfl
  have hc2 : THINGSET_CAN_TYPE_REPORT = 33554432 := rfl
  have hcc : THINGSET_CAN_TYPE_CONTROL = 33554432 := rfl
  have hc3 : THINGSET_CAN_TYPE_NETWORK = 50331648 := rfl
  have hs1 : (1 : Nat) <<< THINGSET_CAN_TYPE_POS = 16777216 := rfl
  simp only [isUnknown, isNetworkMgmt, THINGSET_CAN_CHANNEL, THINGSET_CAN_CONTROL,
    THINGSET_CAN_REPORT, hand, hprio, hc0, hc2, hcc, hc3, hs1, Bool.or_eq_true,
    Bool.and_eq_true, Bool.not_eq_true', Bool.and_eq_false_iff, decide_eq_true_eq,
    decide_eq_false_iff_not, ge_iff_le]
  omega

/-- Witness for C2 at id = 0x1000000 (the reserved type tag 0x1, an
Unknown identifier). -/
theorem C2_classification_partition_witness :
    (THINGSET_CAN_CHANNEL 0x1000000 = true
      ∨ (THINGSET_CAN_CONTROL 0x1000000 || THINGSET_CAN_REPORT 0x1000000) = true
      ∨ isNetworkMgmt 0x1000000 = true ∨ isUnknown 0x1000000 = true) ∧
    ¬(THINGSET_CAN_CHANNEL 0x1000000 = true ∧ THINGSET_CAN_CONTROL 0x1000000 = true) ∧
    ¬(THINGSET_CAN_CHANNEL 0x1000000 = true ∧ THINGSET_CAN_REPORT 0x1000000 = true) ∧
    ¬(THINGSET_CAN_CHANNEL 0x1000000 = true ∧ isNetworkMgmt 0x1000000 = true) ∧
    ¬(THINGSET_CAN_CONTROL 0x1000000 = true ∧ THINGSET_CAN_REPORT 0x1000000 = true) ∧
    ¬(THINGSET_CAN_CONTROL 0x1000000 = true ∧ isNetworkMgmt 0x1000000 = true) ∧
    ¬(THINGSET_CAN_REPORT 0x1000000 = true ∧ isNetworkMgmt 0x1000000 = true) ∧
    ¬(THINGSET_CAN_CHANNEL 0x1000000 = true ∧ isUnknown 0x1000000 = true) ∧
    ¬(THINGSET_CAN_CONTROL 0x1000000 = true ∧ isUnknown 0x1000000 = true) ∧
    ¬(THINGSET_CAN_REPORT 0x1000000 = true ∧ isUnknown 0x1000000 = true) ∧
    ¬(isNetworkMgmt 0x1000000 = true ∧ isUnknown 0x1000000 = true) ∧
    (isUnknown 0x1000000 = true
      ↔ 0x1000000 &&& THINGSET_CAN_TYPE_MASK = 1 <<< THINGSET_CAN_TYPE_POS) :=
  C2_classification_partition 0x1000000 (by decide)
